/-
Verification of the NanoERP invoice engine (models.py, database.py,
ui/invoices.py) against its natural-language specification.

Shallow embedding conventions:
* Python floats are embedded as rationals (ℚ); all the arithmetic the
  claims speak about (+, -, *, /, min, comparisons) is exact there.
* SQLite tables are embedded as Lean lists of row structures; a
  statement is a function from the store to the store.
* `Database.execute` (database.py, lines 35-59) runs one statement and
  then calls `connection.commit()`, so in the embedding every executed
  statement is immediately durable.
* Fields of the Python dataclasses that no claim touches (dates, notes,
  timestamps) are omitted from the row structures.
-/
import Mathlib

namespace NanoERP

/-- One invoice line, mirroring the `InvoiceItem` dataclass
(models.py, lines 207-218). -/
structure InvoiceItem where
  id : Option Nat := none
  product_id : Option Nat := none
  description : String := ""
  quantity : ℚ := 1
  unit_price : ℚ := 0
  total : ℚ := 0
deriving Repr, DecidableEq

/-- Embeds `InvoiceItem.calculate_total` (models.py, lines 216-218): stores
`quantity * unit_price` into the item's `total` field.  The Python method
mutates the item and returns the number; the embedding returns the
updated item, whose `total` field is that number. -/
def InvoiceItem.calculate_total (it : InvoiceItem) : InvoiceItem :=
  { it with total := it.quantity * it.unit_price }

/-- The `Invoice` dataclass (models.py, lines 275-294), restricted to the
fields the claims are about. -/
structure Invoice where
  id : Option Nat := none
  invoice_number : String := ""
  customer_id : Option Nat := none
  subtotal : ℚ := 0
  discount_amount : ℚ := 0
  discount_percentage : ℚ := 0
  discounted_subtotal : ℚ := 0
  tax_rate : ℚ := 18
  tax_amount : ℚ := 0
  total : ℚ := 0
  status : String := "pending"
  items : List InvoiceItem := []
deriving Repr, DecidableEq

/-- The discount-resolution block of `Invoice.calculate_totals`
(models.py, lines 310-317).  Given the incoming `discount_percentage`,
`discount_amount` and the freshly computed subtotal, it returns the pair
(new discount_amount, new discount_percentage):
if the percentage is positive it is authoritative, otherwise the amount
is clamped to the subtotal and the percentage is back-derived when the
subtotal is positive (and left as it was otherwise). -/
def resolve_discount (pct damt sub : ℚ) : ℚ × ℚ :=
  if 0 < pct then
    (sub * (pct / 100), pct)
  else
    let d := min damt sub
    (d, if 0 < sub then d / sub * 100 else pct)

/-- Embeds `Invoice.calculate_totals` (models.py, lines 305-326): recomputes each
item's total, sums them into `subtotal`, resolves the discount, and
derives `discounted_subtotal`, `tax_amount` and `total`. -/
def Invoice.calculate_totals (inv : Invoice) : Invoice :=
  let items := inv.items.map InvoiceItem.calculate_total
  let sub := (items.map (fun it => it.total)).sum
  let rd := resolve_discount inv.discount_percentage inv.discount_amount sub
  let ds := sub - rd.1
  let tax := ds * (inv.tax_rate / 100)
  { inv with
    items := items
    subtotal := sub
    discount_amount := rd.1
    discount_percentage := rd.2
    discounted_subtotal := ds
    tax_amount := tax
    total := ds + tax }

/-- The invoice of the spec's worked scenario: one line of quantity 2 at
unit price 50.00, tax rate 18, discount percentage 10. -/
def scenario_invoice : Invoice :=
  { items := [{ quantity := 2, unit_price := 50 }]
    tax_rate := 18
    discount_percentage := 10 }

lemma calculate_totals_subtotal (inv : Invoice) :
    inv.calculate_totals.subtotal
      = (inv.items.map (fun it => it.quantity * it.unit_price)).sum := by
  simp only [Invoice.calculate_totals, List.map_map]
  exact congrArg List.sum (List.map_congr_left fun it _ => rfl)

lemma calculate_totals_tax_rate (inv : Invoice) :
    inv.calculate_totals.tax_rate = inv.tax_rate := rfl

lemma calculate_totals_discount_amount (inv : Invoice) :
    inv.calculate_totals.discount_amount
      = (resolve_discount inv.discount_percentage inv.discount_amount
          inv.calculate_totals.subtotal).1 := rfl

lemma calculate_totals_discount_percentage (inv : Invoice) :
    inv.calculate_totals.discount_percentage
      = (resolve_discount inv.discount_percentage inv.discount_amount
          inv.calculate_totals.subtotal).2 := rfl

lemma calculate_totals_discounted_subtotal (inv : Invoice) :
    inv.calculate_totals.discounted_subtotal
      = inv.calculate_totals.subtotal - inv.calculate_totals.discount_amount := rfl

lemma calculate_totals_tax_amount (inv : Invoice) :
    inv.calculate_totals.tax_amount
      = inv.calculate_totals.discounted_subtotal * (inv.tax_rate / 100) := rfl

lemma calculate_totals_total (inv : Invoice) :
    inv.calculate_totals.total
      = inv.calculate_totals.discounted_subtotal + inv.calculate_totals.tax_amount := rfl

/-- C1: after `calculate_totals`, subtotal is the sum of quantity times
unit price over the items, `discounted_subtotal = subtotal -
discount_amount`, `tax_amount = discounted_subtotal * tax_rate / 100`,
`total = discounted_subtotal + tax_amount`; and on the scenario
items=[{qty:2, price:50}], tax_rate=18, discount_percentage=10 the
results are subtotal=100, discount_amount=10, discounted_subtotal=90,
tax_amount=16.20, total=106.20. -/
theorem C1_calculate_totals_invariants :
    (∀ inv : Invoice,
      inv.calculate_totals.subtotal
          = (inv.items.map (fun it => it.quantity * it.unit_price)).sum ∧
      inv.calculate_totals.discounted_subtotal
          = inv.calculate_totals.subtotal - inv.calculate_totals.discount_amount ∧
      inv.calculate_totals.tax_amount
          = inv.calculate_totals.discounted_subtotal
              * (inv.calculate_totals.tax_rate / 100) ∧
      inv.calculate_totals.total
          = inv.calculate_totals.discounted_subtotal
              + inv.calculate_totals.tax_amount) ∧
    scenario_invoice.calculate_totals.subtotal = 100 ∧
    scenario_invoice.calculate_totals.discount_amount = 10 ∧
    scenario_invoice.calculate_totals.discounted_subtotal = 90 ∧
    scenario_invoice.calculate_totals.tax_amount = 16.2 ∧
    scenario_invoice.calculate_totals.total = 106.2 := by
  refine ⟨fun inv => ⟨calculate_totals_subtotal inv,
      calculate_totals_discounted_subtotal inv,
      calculate_totals_tax_amount inv,
      calculate_totals_total inv⟩, ?_, ?_, ?_, ?_, ?_⟩ <;>
    norm_num [scenario_invoice, Invoice.calculate_totals,
      InvoiceItem.calculate_total, resolve_discount]

lemma calculate_totals_items_qp (inv : Invoice) :
    inv.calculate_totals.items.map (fun it => it.quantity * it.unit_price)
      = inv.items.map (fun it => it.quantity * it.unit_price) := by
  simp only [Invoice.calculate_totals, List.map_map]
  exact List.map_congr_left fun it _ => rfl

/-- Resolving the discount a second time, feeding back the amount and
percentage produced by the first resolution against the same subtotal,
changes nothing. -/
lemma resolve_discount_idem (p d s : ℚ) :
    resolve_discount (resolve_discount p d s).2 (resolve_discount p d s).1 s
      = resolve_discount p d s := by
  unfold resolve_discount
  by_cases hp : 0 < p
  · simp [hp]
  · simp only [if_neg hp]
    by_cases hs : 0 < s
    · simp only [if_pos hs]
      by_cases h2 : 0 < min d s / s * 100
      · have hback : s * (min d s / s) = min d s := by
          rw [mul_comm, div_mul_cancel₀ _ (ne_of_gt hs)]
        simp [h2, hback]
      · have hmin : min (min d s) s = min d s := min_eq_left (min_le_right d s)
        simp [h2, hs, hmin]
    · simp only [if_neg hs]
      have hmin : min (min d s) s = min d s := min_eq_left (min_le_right d s)
      simp [hp, hs, hmin]

/-- Running `calculate_totals` keeps the resolved discount pair at a fixed point
of `resolve_discount` with respect to its own subtotal. -/
lemma calculate_totals_discount_fixed (inv : Invoice) :
    resolve_discount inv.calculate_totals.discount_percentage
        inv.calculate_totals.discount_amount inv.calculate_totals.subtotal
      = (inv.calculate_totals.discount_amount,
          inv.calculate_totals.discount_percentage) := by
  rw [calculate_totals_discount_amount inv, calculate_totals_discount_percentage inv,
    resolve_discount_idem, Prod.mk.eta]

/-- C3: in `calculate_totals`, a positive discount percentage is
authoritative (`discount_amount = subtotal * percentage / 100`), while
with a zero percentage the amount is clamped to `min(discount_amount,
subtotal)` and the percentage is back-derived when the subtotal is
positive, staying 0 when the subtotal is 0. -/
theorem C3_discount_resolution (inv : Invoice) :
    (0 < inv.discount_percentage →
      inv.calculate_totals.discount_amount
        = inv.calculate_totals.subtotal * (inv.discount_percentage / 100)) ∧
    (inv.discount_percentage = 0 →
      inv.calculate_totals.discount_amount
          = min inv.discount_amount inv.calculate_totals.subtotal ∧
      (0 < inv.calculate_totals.subtotal →
        inv.calculate_totals.discount_percentage
          = inv.calculate_totals.discount_amount
              / inv.calculate_totals.subtotal * 100) ∧
      (inv.calculate_totals.subtotal = 0 →
        inv.calculate_totals.discount_percentage = 0)) := by
  constructor
  · intro hp
    rw [calculate_totals_discount_amount]
    simp [resolve_discount, hp]
  · intro hp
    have hnp : ¬ 0 < inv.discount_percentage := by rw [hp]; exact lt_irrefl 0
    refine ⟨?_, ?_, ?_⟩
    · rw [calculate_totals_discount_amount]
      simp [resolve_discount, hnp]
    · intro hs
      rw [calculate_totals_discount_percentage, calculate_totals_discount_amount]
      simp [resolve_discount, hnp, hs]
    · intro hs
      have hns : ¬ 0 < inv.calculate_totals.subtotal := by rw [hs]; exact lt_irrefl 0
      rw [calculate_totals_discount_percentage]
      simp [resolve_discount, hnp, hns, hp]

/-- An invoice carrying both a positive discount percentage and a nonzero
discount amount at once, exercising the tie-break of C3. -/
def invC3a : Invoice :=
  { items := [{ quantity := 2, unit_price := 50 }]
    discount_percentage := 10
    discount_amount := 7 }

/-- An invoice with a zero discount percentage and an explicit discount
amount, exercising the clamping branch of C3. -/
def invC3b : Invoice :=
  { items := [{ quantity := 2, unit_price := 50 }]
    discount_percentage := 0
    discount_amount := 30 }

theorem C3_witness :
    (0 < invC3a.discount_percentage ∧
      invC3a.calculate_totals.discount_amount
        = invC3a.calculate_totals.subtotal * (invC3a.discount_percentage / 100)) ∧
    (invC3b.discount_percentage = 0 ∧
      invC3b.calculate_totals.discount_amount
        = min invC3b.discount_amount invC3b.calculate_totals.subtotal) :=
  ⟨⟨by norm_num [invC3a], (C3_discount_resolution invC3a).1 (by norm_num [invC3a])⟩,
   ⟨rfl, ((C3_discount_resolution invC3b).2 rfl).1⟩⟩

/-- C8: `calculate_totals` is idempotent — running it a second time with
items, discount inputs and tax rate unchanged reproduces the same
subtotal, discount amount, discount percentage, discounted subtotal, tax
amount and total. -/
theorem C8_calculate_totals_idempotent (inv : Invoice) :
    inv.calculate_totals.calculate_totals.subtotal
        = inv.calculate_totals.subtotal ∧
    inv.calculate_totals.calculate_totals.discount_amount
        = inv.calculate_totals.discount_amount ∧
    inv.calculate_totals.calculate_totals.discount_percentage
        = inv.calculate_totals.discount_percentage ∧
    inv.calculate_totals.calculate_totals.discounted_subtotal
        = inv.calculate_totals.discounted_subtotal ∧
    inv.calculate_totals.calculate_totals.tax_amount
        = inv.calculate_totals.tax_amount ∧
    inv.calculate_totals.calculate_totals.total
        = inv.calculate_totals.total := by
  have hs : inv.calculate_totals.calculate_totals.subtotal
      = inv.calculate_totals.subtotal := by
    rw [calculate_totals_subtotal inv.calculate_totals, calculate_totals_items_qp inv,
      ← calculate_totals_subtotal inv]
  have hda : inv.calculate_totals.calculate_totals.discount_amount
      = inv.calculate_totals.discount_amount := by
    rw [calculate_totals_discount_amount inv.calculate_totals, hs,
      calculate_totals_discount_fixed inv]
  have hdp : inv.calculate_totals.calculate_totals.discount_percentage
      = inv.calculate_totals.discount_percentage := by
    rw [calculate_totals_discount_percentage inv.calculate_totals, hs,
      calculate_totals_discount_fixed inv]
  have hds : inv.calculate_totals.calculate_totals.discounted_subtotal
      = inv.calculate_totals.discounted_subtotal := by
    rw [calculate_totals_discounted_subtotal inv.calculate_totals, hs, hda,
      ← calculate_totals_discounted_subtotal inv]
  have htx : inv.calculate_totals.calculate_totals.tax_amount
      = inv.calculate_totals.tax_amount := by
    rw [calculate_totals_tax_amount inv.calculate_totals, hds,
      calculate_totals_tax_rate inv, ← calculate_totals_tax_amount inv]
  refine ⟨hs, hda, hdp, hds, htx, ?_⟩
  rw [calculate_totals_total inv.calculate_totals, hds, htx,
    ← calculate_totals_total inv]

/-- C9: when the items sum to subtotal 0 and the incoming discount amount
is non-negative, `calculate_totals` sets subtotal, discount amount,
discounted subtotal, tax amount and total all to 0. -/
theorem C9_zero_subtotal (inv : Invoice)
    (h0 : (inv.items.map (fun it => it.quantity * it.unit_price)).sum = 0)
    (hd : 0 ≤ inv.discount_amount) :
    inv.calculate_totals.subtotal = 0 ∧
    inv.calculate_totals.discount_amount = 0 ∧
    inv.calculate_totals.discounted_subtotal = 0 ∧
    inv.calculate_totals.tax_amount = 0 ∧
    inv.calculate_totals.total = 0 := by
  have hs : inv.calculate_totals.subtotal = 0 := by
    rw [calculate_totals_subtotal]; exact h0
  have hda : inv.calculate_totals.discount_amount = 0 := by
    rw [calculate_totals_discount_amount, hs]
    unfold resolve_discount
    by_cases hp : 0 < inv.discount_percentage
    · simp [hp]
    · simp [hp, min_eq_right hd]
  have hds : inv.calculate_totals.discounted_subtotal = 0 := by
    rw [calculate_totals_discounted_subtotal, hs, hda, sub_zero]
  have htx : inv.calculate_totals.tax_amount = 0 := by
    rw [calculate_totals_tax_amount, hds, zero_mul]
  refine ⟨hs, hda, hds, htx, ?_⟩
  rw [calculate_totals_total, hds, htx, add_zero]

/-- An invoice with no items but a positive incoming discount amount,
exercising C9. -/
def invC9 : Invoice :=
  { items := []
    discount_amount := 5
    discount_percentage := 0
    tax_rate := 18 }

theorem C9_witness :
    (invC9.items.map (fun it => it.quantity * it.unit_price)).sum = 0 ∧
    0 ≤ invC9.discount_amount ∧
    (invC9.calculate_totals.subtotal = 0 ∧
     invC9.calculate_totals.discount_amount = 0 ∧
     invC9.calculate_totals.discounted_subtotal = 0 ∧
     invC9.calculate_totals.tax_amount = 0 ∧
     invC9.calculate_totals.total = 0) :=
  ⟨rfl, by norm_num [invC9],
    C9_zero_subtotal invC9 rfl (by norm_num [invC9])⟩

/-- Truthiness of an optional integer id in Python (`if self.id:`):
`None` and `0` are falsy, every other integer is truthy. -/
def idTruthy : Option Nat → Bool
  | none => false
  | some n => n != 0

/-- A row of the `payments` table (database.py, lines 184-195),
restricted to the columns the claims use: `invoice_id` and `amount`. -/
structure PaymentRow where
  invoice_id : Option Nat
  amount : ℚ
deriving Repr, DecidableEq

/-- Embeds `Payment.get_by_invoice` (models.py, lines 245-261), restricted to
the amounts: the amounts of all payment rows whose `invoice_id` matches.
(The SQL orders the rows by payment date, which does not affect the sums
the claims are about.) -/
def get_by_invoice (tbl : List PaymentRow) (i : Option Nat) : List ℚ :=
  (tbl.filter (fun r => r.invoice_id = i)).map (fun r => r.amount)

/-- The slice of run-time state that `Invoice.add_payment` touches: the
invoice's `total` and `status`, its identity, the in-memory
`self.payments` cache (as a list of amounts), and the rows of the
`payments` table.  `add_payment` writes its new status both to the
in-memory field and to the invoice's database row with the same value;
`status` stands for both. -/
structure PayState where
  total : ℚ
  status : String
  id : Option Nat
  payments : List ℚ
  dbPayments : List PaymentRow
deriving Repr, DecidableEq

/-- Embeds `Invoice.add_payment` (models.py, lines 417-443): saves a new
`Payment` row; computes `total_paid` as the sum over `get_payments()`
(models.py, lines 445-449) — the in-memory cache when it is non-empty,
otherwise, for an invoice with a truthy id, the table rows, which at
this point already include the just-saved payment; sets the status to
"paid" when `total_paid >= total` and to "partial" otherwise; and only
then appends the new payment to the in-memory list (line 442, which
duplicates it there when `get_payments` loaded it from the table). -/
def add_payment (s : PayState) (amount : ℚ) : PayState :=
  let dbp := s.dbPayments ++ [{ invoice_id := s.id, amount := amount }]
  let cache :=
    if s.payments.isEmpty && idTruthy s.id then get_by_invoice dbp s.id
    else s.payments
  let total_paid := cache.sum
  let st := if s.total ≤ total_paid then "paid" else "partial"
  { s with dbPayments := dbp, payments := cache ++ [amount], status := st }

/-- A freshly loaded pending invoice of total 100 with no payments yet,
used against C4. -/
def payC4 : PayState :=
  { total := 100, status := "pending", id := some 1
    payments := [], dbPayments := [] }

/-- C4 counterexample: on `payC4` (total 100, status "pending"),
`add_payment 0` yields status "partial" although the claim's recipe
(total_paid = 0, not ≥ total, not > 0) leaves the status unchanged at
"pending"; and after `add_payment 30` then `add_payment 80` the rows of
the payments table sum to 110 ≥ total, so the claim's recipe gives
"paid", yet the code leaves status "partial" (its cached payment list
double-counts the first payment and misses the second). -/
theorem C4_counterexample :
    (add_payment payC4 0).status = "partial" ∧
    payC4.status = "pending" ∧ (0 : ℚ) < payC4.total ∧
    (add_payment (add_payment payC4 30) 80).status = "partial" ∧
    (get_by_invoice (add_payment (add_payment payC4 30) 80).dbPayments
        (some 1)).sum = 110 ∧
    payC4.total ≤ 110 := by
  refine ⟨?_, rfl, by norm_num [payC4], ?_, ?_, by norm_num [payC4]⟩ <;>
    norm_num [add_payment, payC4, get_by_invoice, idTruthy]

/-- C4 as amended: on an `add_payment` call made while the in-memory
payment list is empty and the invoice has a truthy id, the recomputed
`total_paid` is the sum of all of that invoice's payment rows (the new
payment included), and the status becomes "paid" when `total_paid ≥
total` and "partial" otherwise — it is never left unchanged, even when
`total_paid ≤ 0`. -/
theorem C4_add_payment_status (s : PayState) (a : ℚ)
    (hc : s.payments = []) (hid : idTruthy s.id = true) :
    ((add_payment s a).status = "paid" ∨ (add_payment s a).status = "partial") ∧
    (add_payment s a).status
      = (if s.total ≤ (get_by_invoice
            (s.dbPayments ++ [{ invoice_id := s.id, amount := a }]) s.id).sum
         then "paid" else "partial") := by
  constructor
  · by_cases h : s.total ≤ (get_by_invoice
        (s.dbPayments ++ [{ invoice_id := s.id, amount := a }]) s.id).sum
    · left; simp [add_payment, hc, hid, h]
    · right; simp [add_payment, hc, hid, h]
  · simp [add_payment, hc, hid]

theorem C4_witness :
    payC4.payments = [] ∧ idTruthy payC4.id = true ∧
    (((add_payment payC4 30).status = "paid" ∨
        (add_payment payC4 30).status = "partial") ∧
      (add_payment payC4 30).status
        = (if payC4.total ≤ (get_by_invoice
              (payC4.dbPayments ++ [{ invoice_id := payC4.id, amount := 30 }])
              payC4.id).sum
           then "paid" else "partial")) :=
  ⟨rfl, rfl, C4_add_payment_status payC4 30 rfl rfl⟩

/-- C10: `add_payment` validates nothing: for every amount (0 and
negative included) it appends a payment row with exactly that amount to
the payments table, and it always overwrites the invoice status to
either "paid" or "partial". -/
theorem C10_add_payment_no_validation (s : PayState) (a : ℚ) :
    (add_payment s a).dbPayments
        = s.dbPayments ++ [{ invoice_id := s.id, amount := a }] ∧
    ((add_payment s a).status = "paid" ∨ (add_payment s a).status = "partial") := by
  refine ⟨rfl, ?_⟩
  simp only [add_payment]
  split <;> split
  · exact Or.inl rfl
  · exact Or.inr rfl
  · exact Or.inl rfl
  · exact Or.inr rfl

/-- A row of the `products` table (database.py, lines 117-128),
restricted to the columns the stock workflow touches. -/
structure ProductRow where
  id : Nat
  stock : ℚ
  is_service : Bool
deriving Repr, DecidableEq

/-- The read `SELECT stock, is_service FROM products WHERE id=?` through
`Database.fetch_one` (database.py, lines 61-73): the first row with the
given id, if any. -/
def fetch_product : List ProductRow → Nat → Option ProductRow
  | [], _ => none
  | r :: rest, pid => if r.id = pid then some r else fetch_product rest pid

/-- The statement `UPDATE products SET stock=? WHERE id=?`: stores the given stock into
every row with the given id. -/
def set_stock : List ProductRow → Nat → ℚ → List ProductRow
  | [], _, _ => []
  | r :: rest, pid, v =>
      (if r.id = pid then { r with stock := v } else r) :: set_stock rest pid v

/-- One iteration of the stock loops of `InvoicesFrame.save_invoice`
(ui/invoices.py, lines 1557-1566) and `InvoicesFrame.delete_invoice`
(lines 1597-1606): for an item with a truthy product reference, read the
product row and, when it exists and is not a service, store
`op stock quantity` back (`op` is subtraction on save, addition on
delete). -/
def stock_loop_step (op : ℚ → ℚ → ℚ) (tbl : List ProductRow)
    (it : InvoiceItem) : List ProductRow :=
  it.product_id.elim tbl (fun pid =>
    if pid = 0 then tbl
    else
      (fetch_product tbl pid).elim tbl (fun r =>
        if r.is_service then tbl
        else set_stock tbl pid (op r.stock it.quantity)))

/-- The stock-adjustment loop run by the invoice-save workflow
(ui/invoices.py, lines 1557-1566): each item's quantity is subtracted
from its product's stock. -/
def save_stock (tbl : List ProductRow) (items : List InvoiceItem) :
    List ProductRow :=
  items.foldl (stock_loop_step (fun s q => s - q)) tbl

/-- The stock-restoration loop run by `delete_invoice` (ui/invoices.py,
lines 1597-1606): each item's quantity is added back to its product's
stock. -/
def delete_stock (tbl : List ProductRow) (items : List InvoiceItem) :
    List ProductRow :=
  items.foldl (stock_loop_step (fun s q => s + q)) tbl

lemma fetch_set_self (tbl : List ProductRow) (pid : Nat) (v : ℚ) :
    fetch_product (set_stock tbl pid v) pid
      = (fetch_product tbl pid).map (fun r => { r with stock := v }) := by
  induction tbl with
  | nil => rfl
  | cons r rest ih =>
    by_cases h1 : r.id = pid
    · simp [set_stock, fetch_product, h1]
    · simp [set_stock, fetch_product, h1, ih]

lemma fetch_set_ne (tbl : List ProductRow) (pid q : Nat) (v : ℚ)
    (h : pid ≠ q) :
    fetch_product (set_stock tbl pid v) q = fetch_product tbl q := by
  induction tbl with
  | nil => rfl
  | cons r rest ih =>
    by_cases h1 : r.id = pid
    · have h2 : ¬ r.id = q := by rw [h1]; exact h
      simp [set_stock, fetch_product, h1, h2, h, ih]
    · by_cases h2 : r.id = q
      · simp [set_stock, fetch_product, h1, h2, Ne.symm h]
      · simp [set_stock, fetch_product, h1, h2, ih]

/-- A single pass of the stock loop never moves a service product's row:
the loop re-reads `is_service` before each write and skips services. -/
lemma stock_loop_step_service (op : ℚ → ℚ → ℚ) (tbl : List ProductRow)
    (it : InvoiceItem) (q : Nat) (rq : ProductRow)
    (hq : fetch_product tbl q = some rq) (hs : rq.is_service = true) :
    fetch_product (stock_loop_step op tbl it) q = some rq := by
  cases hp : it.product_id with
  | none => simpa [stock_loop_step, hp] using hq
  | some pid =>
    by_cases h0 : pid = 0
    · simpa [stock_loop_step, hp, h0] using hq
    · cases hf : fetch_product tbl pid with
      | none => simpa [stock_loop_step, hp, h0, hf] using hq
      | some r =>
        by_cases hsr : r.is_service = true
        · simpa [stock_loop_step, hp, h0, hf, hsr] using hq
        · by_cases hpq : pid = q
          · subst hpq
            rw [hf] at hq
            injection hq with e
            rw [e] at hsr
            exact absurd hs hsr
          · rw [show stock_loop_step op tbl it
                = set_stock tbl pid (op r.stock it.quantity) by
              simp [stock_loop_step, hp, h0, hf, hsr]]
            rw [fetch_set_ne _ _ _ _ hpq]
            exact hq

lemma foldl_stock_service (op : ℚ → ℚ → ℚ) (items : List InvoiceItem) :
    ∀ (tbl : List ProductRow) (q : Nat) (rq : ProductRow),
      fetch_product tbl q = some rq → rq.is_service = true →
      fetch_product (items.foldl (stock_loop_step op) tbl) q = some rq := by
  induction items with
  | nil => intro tbl q rq hq _; exact hq
  | cons it rest ih =>
    intro tbl q rq hq hs
    exact ih _ _ _ (stock_loop_step_service op tbl it q rq hq hs) hs

/-- C6: saving a new invoice with a single item of quantity q on a
non-service product of stock s leaves the product's stock at s - q;
deleting that invoice restores the stock to s; and the stock loops of
both operations never change a service product's row, whatever the item
list. -/
theorem C6_stock_save_delete (tbl : List ProductRow) (it : InvoiceItem)
    (pid : Nat) (r : ProductRow)
    (hit : it.product_id = some pid) (hpid : pid ≠ 0)
    (hr : fetch_product tbl pid = some r) (hsv : r.is_service = false) :
    (fetch_product (save_stock tbl [it]) pid).map (fun p => p.stock)
        = some (r.stock - it.quantity) ∧
    (fetch_product (delete_stock (save_stock tbl [it]) [it]) pid).map
        (fun p => p.stock) = some r.stock ∧
    (∀ (items : List InvoiceItem) (q : Nat) (rq : ProductRow),
      fetch_product tbl q = some rq → rq.is_service = true →
      fetch_product (save_stock tbl items) q = some rq ∧
      fetch_product (delete_stock tbl items) q = some rq) := by
  have hsave : save_stock tbl [it]
      = set_stock tbl pid (r.stock - it.quantity) := by
    show stock_loop_step (fun s q => s - q) tbl it = _
    simp [stock_loop_step, hit, hpid, hr, hsv]
  have hfetch1 : fetch_product (save_stock tbl [it]) pid
      = some { r with stock := r.stock - it.quantity } := by
    rw [hsave, fetch_set_self, hr]; rfl
  have hdel : delete_stock (save_stock tbl [it]) [it]
      = set_stock (save_stock tbl [it]) pid
          (r.stock - it.quantity + it.quantity) := by
    show stock_loop_step (fun s q => s + q) (save_stock tbl [it]) it = _
    simp [stock_loop_step, hit, hpid, hfetch1, hsv]
  refine ⟨?_, ?_, ?_⟩
  · rw [hfetch1]; rfl
  · rw [hdel, fetch_set_self, hfetch1]
    show some (r.stock - it.quantity + it.quantity) = some r.stock
    exact congrArg some (by ring)
  · intro items q rq hq hs
    exact ⟨foldl_stock_service _ items tbl q rq hq hs,
      foldl_stock_service _ items tbl q rq hq hs⟩

/-- A concrete products table for the C6 witness: product 1 has stock 10
and is not a service, product 2 is a service with stock 5. -/
def tblC6 : List ProductRow :=
  [{ id := 1, stock := 10, is_service := false },
   { id := 2, stock := 5, is_service := true }]

/-- The scenario item of C6: quantity 3 of product 1. -/
def itC6 : InvoiceItem := { product_id := some 1, quantity := 3 }

theorem C6_witness :
    itC6.product_id = some 1 ∧ (1 : Nat) ≠ 0 ∧
    fetch_product tblC6 1
        = some { id := 1, stock := 10, is_service := false } ∧
    (fetch_product (save_stock tblC6 [itC6]) 1).map (fun p => p.stock)
        = some (10 - 3 : ℚ) ∧
    (fetch_product (delete_stock (save_stock tblC6 [itC6]) [itC6]) 1).map
        (fun p => p.stock) = some (10 : ℚ) :=
  ⟨rfl, by norm_num, rfl,
    (C6_stock_save_delete tblC6 itC6 1
      { id := 1, stock := 10, is_service := false }
      rfl (by norm_num) rfl rfl).1,
    (C6_stock_save_delete tblC6 itC6 1
      { id := 1, stock := 10, is_service := false }
      rfl (by norm_num) rfl rfl).2.1⟩

/-- The value of a non-empty all-digit character list read in base 10;
`none` otherwise. -/
def digits_to_nat (cs : List Char) : Option Nat :=
  if cs.isEmpty then none
  else if cs.all (fun c => c.isDigit) then
    some (cs.foldl (fun acc c => acc * 10 + (c.toNat - 48)) 0)
  else none

/-- Python's `int()` on a decimal string: optional surrounding
whitespace, an optional sign, then one or more digits; `none` models the
`ValueError` on anything else.  (Digit-group underscores, accepted by
Python, are not modelled; no claim involves them.) -/
def pyInt? (s : String) : Option Int :=
  let t :=
    ((s.toList.dropWhile Char.isWhitespace).reverse.dropWhile
      Char.isWhitespace).reverse
  match t with
  | '-' :: core => (digits_to_nat core).map (fun n => -(n : Int))
  | '+' :: core => (digits_to_nat core).map (fun n => (n : Int))
  | core => (digits_to_nat core).map (fun n => (n : Int))

/-- A row of the `invoices` table (database.py, lines 131-151),
restricted to the columns the claims touch. -/
structure InvoiceRow where
  id : Nat
  invoice_number : String
  customer_id : Option Nat
  subtotal : ℚ
  discount_amount : ℚ
  discount_percentage : ℚ
  discounted_subtotal : ℚ
  tax_rate : ℚ
  tax_amount : ℚ
  total : ℚ
  status : String
deriving Repr, DecidableEq

/-- A row of the `invoice_items` table (database.py, lines 154-167). -/
structure ItemRow where
  invoice_id : Nat
  product_id : Option Nat
  description : String
  quantity : ℚ
  unit_price : ℚ
  total : ℚ
deriving Repr, DecidableEq

/-- The slice of the database the invoice workflows touch: the
`invoices`, `invoice_items` and `products` tables, plus the value of the
settings row with key `next_invoice_number` (`none` when that row is
absent). -/
structure Store where
  invoices : List InvoiceRow
  invoice_items : List ItemRow
  products : List ProductRow
  next_invoice_number : Option String
deriving Repr, DecidableEq

/-- The rowid handed out for a fresh insert into `invoices`
(`cursor.lastrowid`): one more than the largest existing rowid. -/
def next_rowid (st : Store) : Nat :=
  (st.invoices.map (fun r => r.id)).foldr max 0 + 1

/-- The rowid of the most recently inserted invoice (the `self.id` the
item inserts refer to). -/
def last_invoice_rowid (st : Store) : Nat :=
  (st.invoices.map (fun r => r.id)).foldr max 0

/-- The column tuple of the `INSERT INTO invoices` statement of
`Invoice.save` (models.py, lines 338-347). -/
def Invoice.header_row (inv : Invoice) (rid : Nat) : InvoiceRow :=
  { id := rid
    invoice_number := inv.invoice_number
    customer_id := inv.customer_id
    subtotal := inv.subtotal
    discount_amount := inv.discount_amount
    discount_percentage := inv.discount_percentage
    discounted_subtotal := inv.discounted_subtotal
    tax_rate := inv.tax_rate
    tax_amount := inv.tax_amount
    total := inv.total
    status := inv.status }

/-- The column tuple of one `INSERT INTO invoice_items` statement
(models.py, lines 350-356). -/
def item_row (rid : Nat) (it : InvoiceItem) : ItemRow :=
  { invoice_id := rid
    product_id := it.product_id
    description := it.description
    quantity := it.quantity
    unit_price := it.unit_price
    total := it.total }

/-- Embeds `Invoice._generate_invoice_number` (models.py, lines 392-395): the
value of the `next_invoice_number` settings row, or "1001" when the row
is absent. -/
def generate_invoice_number (st : Store) : String :=
  st.next_invoice_number.getD "1001"

/-- The statement `UPDATE settings SET value=? WHERE key="next_invoice_number"`
(models.py, lines 361-362): a SQL UPDATE changes only existing rows, so
when the settings row is absent this is a no-op. -/
def update_next_invoice_number (st : Store) (v : String) : Store :=
  { st with next_invoice_number := st.next_invoice_number.map (fun _ => v) }

/-- Embeds `Invoice.save` (models.py, lines 328-390).  It first runs
`calculate_totals`.  For a new invoice (the match is on the incoming
`self.id`, which `calculate_totals` does not touch) it resolves a blank
invoice number through `_generate_invoice_number`, inserts the header
and the items, and then increments the `next_invoice_number` setting
unless `int(...)` raises `ValueError` (non-numeric number), in which
case the setting is deliberately left alone (lines 358-365).  For an
existing invoice it updates the header columns — `invoice_number` is not
among them — and replaces the items (lines 366-388). -/
def Invoice.save (inv0 : Invoice) (st : Store) : Invoice × Store :=
  let inv := inv0.calculate_totals
  match inv0.id with
  | none =>
    let number :=
      if inv.invoice_number = "" then generate_invoice_number st
      else inv.invoice_number
    let rid := next_rowid st
    let inv := { inv with invoice_number := number, id := some rid }
    let st := { st with invoices := st.invoices ++ [inv.header_row rid] }
    let st := { st with
      invoice_items := st.invoice_items ++ inv.items.map (item_row rid) }
    let st :=
      match pyInt? number with
      | some n => update_next_invoice_number st (toString (n + 1))
      | none => st
    (inv, st)
  | some rid =>
    let st := { st with
      invoices := st.invoices.map (fun (r : InvoiceRow) =>
        if r.id = rid then
          { inv.header_row rid with invoice_number := r.invoice_number }
        else r) }
    let st := { st with
      invoice_items :=
        st.invoice_items.filter (fun (ir : ItemRow) => ¬ ir.invoice_id = rid)
          ++ inv.items.map (item_row rid) }
    (inv, st)

lemma calculate_totals_invoice_number (inv : Invoice) :
    inv.calculate_totals.invoice_number = inv.invoice_number := rfl

/-- The store of the C5 counterexample: a database whose settings table
has no `next_invoice_number` row. -/
def stC5 : Store :=
  { invoices := [], invoice_items := [], products := []
    next_invoice_number := none }

/-- A brand-new invoice with a blank number. -/
def invC5 : Invoice := {}

/-- C5 counterexample: with the `next_invoice_number` settings row
absent, saving a new blank-numbered invoice uses "1001" (which is
numeric), yet the setting afterwards is still absent — not "1002" as the
claim's update rule dictates, because the SQL UPDATE matches no row. -/
theorem C5_counterexample :
    (Invoice.save invC5 stC5).1.invoice_number = "1001" ∧
    pyInt? "1001" = some 1001 ∧
    (Invoice.save invC5 stC5).2.next_invoice_number = none ∧
    (Invoice.save invC5 stC5).2.next_invoice_number ≠ some "1002" := by
  refine ⟨rfl, by decide, rfl, by decide⟩

/-- C5 as amended: for a new invoice saved with a blank number, the
number is taken verbatim from the `next_invoice_number` setting
(defaulting to "1001" when the row is absent); when the settings row
exists with a numeric value n, it is updated to the string form of
n + 1; when the row is absent, the UPDATE matches nothing and the
setting stays absent; and whenever the number used is non-numeric the
setting is left unchanged (no error is raised). -/
theorem C5_invoice_number_generation (st : Store) (inv : Invoice)
    (hid : inv.id = none) :
    (inv.invoice_number = "" →
      (Invoice.save inv st).1.invoice_number = generate_invoice_number st) ∧
    (∀ v n, inv.invoice_number = "" → st.next_invoice_number = some v →
      pyInt? v = some n →
      (Invoice.save inv st).2.next_invoice_number = some (toString (n + 1))) ∧
    (inv.invoice_number = "" → st.next_invoice_number = none →
      (Invoice.save inv st).2.next_invoice_number = none) ∧
    (pyInt? (if inv.invoice_number = "" then generate_invoice_number st
        else inv.invoice_number) = none →
      (Invoice.save inv st).2.next_invoice_number = st.next_invoice_number) := by
  refine ⟨?_, ?_, ?_, ?_⟩
  · intro hb
    simp [Invoice.save, hid, calculate_totals_invoice_number, hb]
  · intro v n hb hsv hn
    simp [Invoice.save, hid, calculate_totals_invoice_number, hb,
      generate_invoice_number, hsv, hn, update_next_invoice_number]
  · intro hb hsv
    have h1001 : pyInt? "1001" = some 1001 := by decide
    simp [Invoice.save, hid, calculate_totals_invoice_number, hb,
      generate_invoice_number, hsv, update_next_invoice_number, h1001]
  · intro hnum
    by_cases hb : inv.invoice_number = ""
    · rw [if_pos hb] at hnum
      simp [Invoice.save, hid, calculate_totals_invoice_number, hb, hnum]
    · rw [if_neg hb] at hnum
      simp [Invoice.save, hid, calculate_totals_invoice_number, hb, hnum]

/-- The store of the C5 witness: the settings row holds "1050". -/
def stC5w : Store :=
  { invoices := [], invoice_items := [], products := []
    next_invoice_number := some "1050" }

theorem C5_witness :
    invC5.id = none ∧ invC5.invoice_number = "" ∧
    stC5w.next_invoice_number = some "1050" ∧
    pyInt? "1050" = some 1050 ∧
    (Invoice.save invC5 stC5w).1.invoice_number
        = generate_invoice_number stC5w ∧
    (Invoice.save invC5 stC5w).2.next_invoice_number = some "1051" := by
  refine ⟨rfl, rfl, rfl, by decide, ?_, ?_⟩
  · exact (C5_invoice_number_generation stC5w invC5 rfl).1 rfl
  · have h := (C5_invoice_number_generation stC5w invC5 rfl).2.1
      "1050" 1050 rfl rfl (by decide)
    rw [h]
    rfl

/-- The sqlite connection seen by the workflows: the durable (committed)
store and the store the next statement reads (`current`), with a flag
for an explicitly opened transaction. -/
structure Conn where
  committed : Store
  current : Store
  inTxn : Bool
deriving Repr, DecidableEq

/-- Embeds `Database.execute` (database.py, lines 35-59): run one statement on
the connection's current state and then call `connection.commit()` — the
result is immediately durable, closing any transaction that was open. -/
def db_execute (c : Conn) (stmt : Store → Store) : Conn :=
  let cur := stmt c.current
  { committed := cur, current := cur, inTxn := false }

/-- Embeds `db.connection.execute("BEGIN TRANSACTION")` (ui/invoices.py,
line 1553). -/
def begin_txn (c : Conn) : Conn := { c with inTxn := true }

/-- Embeds `db.connection.rollback()` (ui/invoices.py, line 1581): discards
whatever is not yet committed. -/
def db_rollback (c : Conn) : Conn :=
  { c with current := c.committed, inTxn := false }

/-- Runs a workflow's statements in order through `Database.execute`.
`failAt = some i` means the i-th statement raises an exception before
changing anything; the exception propagates to the `except` branch of
`save_invoice`, which rolls the connection back and stops. -/
def run_stmts (c : Conn) : List (Store → Store) → Nat → Option Nat → Conn
  | [], _, _ => c
  | stmt :: rest, i, failAt =>
    if failAt = some i then db_rollback c
    else run_stmts (db_execute c stmt) rest (i + 1) failAt

/-- The `INSERT INTO invoices` statement of `Invoice.save`
(models.py, lines 338-347) as a single store transition. -/
def insert_invoice_stmt (inv : Invoice) (st : Store) : Store :=
  { st with invoices := st.invoices ++ [inv.header_row (next_rowid st)] }

/-- One `INSERT INTO invoice_items` statement (models.py, lines
350-356); its `invoice_id` is the `self.id` returned by the header
insert, i.e. the rowid of the most recently inserted invoice. -/
def insert_item_stmt (it : InvoiceItem) (st : Store) : Store :=
  { st with
    invoice_items := st.invoice_items ++ [item_row (last_invoice_rowid st) it] }

/-- The `next_invoice_number` increment of `Invoice.save` (models.py,
lines 358-365): an UPDATE when `int(number)` succeeds, nothing when it
raises `ValueError`. -/
def update_setting_stmt (number : String) (st : Store) : Store :=
  match pyInt? number with
  | some n => update_next_invoice_number st (toString (n + 1))
  | none => st

/-- One iteration of the stock loop of `save_invoice` (ui/invoices.py,
lines 1557-1566): a `fetch_one` on the current state followed by the
stock UPDATE. -/
def stock_update_stmt (it : InvoiceItem) (st : Store) : Store :=
  { st with products := stock_loop_step (fun s q => s - q) st.products it }

/-- The statements `InvoicesFrame.save_invoice` issues after BEGIN for a
new invoice (ui/invoices.py, lines 1549-1570, calling `Invoice.save` of
models.py, lines 332-365): the header insert, one insert per item, the
settings update, then one stock update per item.  `number` is the
invoice number resolved before the inserts. -/
def save_invoice_stmts (inv : Invoice) (number : String) :
    List (Store → Store) :=
  let inv := { inv.calculate_totals with invoice_number := number }
  [insert_invoice_stmt inv] ++ inv.items.map insert_item_stmt
    ++ [update_setting_stmt number] ++ inv.items.map stock_update_stmt

/-- The invoice-save workflow of `InvoicesFrame.save_invoice`
(ui/invoices.py, lines 1549-1582): BEGIN TRANSACTION, then the
statements above, each committed individually by `Database.execute`;
on an exception the except branch calls rollback. -/
def save_invoice_workflow (inv : Invoice) (number : String)
    (failAt : Option Nat) (st : Store) : Conn :=
  run_stmts (begin_txn { committed := st, current := st, inTxn := false })
    (save_invoice_stmts inv number) 0 failAt

/-- The initial store of the C2 counterexample: one non-service product
in stock, empty invoice tables, `next_invoice_number` = "1001". -/
def stC2 : Store :=
  { invoices := [], invoice_items := []
    products := [{ id := 1, stock := 10, is_service := false }]
    next_invoice_number := some "1001" }

/-- The C2 counterexample invoice: new, two items on product 1. -/
def invC2 : Invoice :=
  { items := [{ product_id := some 1, quantity := 3, unit_price := 5 },
              { product_id := some 1, quantity := 2, unit_price := 4 }] }

/-- C2 counterexample: running the save workflow on a new two-item
invoice with the INSERT of the second item raising (failAt = index 2:
index 0 is the header insert, 1 the first item insert) leaves the
committed store holding the invoice header and the first item — the
per-statement commit inside `Database.execute` already made them
durable, so the rollback in the except branch restores nothing and the
invoice store is NOT left unchanged. -/
theorem C2_save_not_atomic :
    (save_invoice_workflow invC2 "1001" (some 2) stC2).committed ≠ stC2 ∧
    (save_invoice_workflow invC2 "1001" (some 2) stC2).committed.invoices.length
        = 1 ∧
    (save_invoice_workflow invC2 "1001" (some 2)
        stC2).committed.invoice_items.length = 1 ∧
    invC2.items.length = 2 ∧
    (save_invoice_workflow invC2 "1001" (some 2) stC2).current
        = (save_invoice_workflow invC2 "1001" (some 2) stC2).committed := by
  have hlen1 : (save_invoice_workflow invC2 "1001" (some 2)
      stC2).committed.invoices.length = 1 := by
    simp [save_invoice_workflow, save_invoice_stmts, run_stmts, db_execute,
      begin_txn, db_rollback, insert_invoice_stmt, insert_item_stmt,
      update_setting_stmt, stock_update_stmt, stC2, invC2,
      Invoice.calculate_totals, InvoiceItem.calculate_total, resolve_discount]
  have hlen2 : (save_invoice_workflow invC2 "1001" (some 2)
      stC2).committed.invoice_items.length = 1 := by
    simp [save_invoice_workflow, save_invoice_stmts, run_stmts, db_execute,
      begin_txn, db_rollback, insert_invoice_stmt, insert_item_stmt,
      update_setting_stmt, stock_update_stmt, stC2, invC2,
      Invoice.calculate_totals, InvoiceItem.calculate_total, resolve_discount]
  have hcc : (save_invoice_workflow invC2 "1001" (some 2) stC2).current
      = (save_invoice_workflow invC2 "1001" (some 2) stC2).committed := by
    simp [save_invoice_workflow, save_invoice_stmts, run_stmts, db_execute,
      begin_txn, db_rollback, insert_invoice_stmt, insert_item_stmt,
      update_setting_stmt, stock_update_stmt, stC2, invC2,
      Invoice.calculate_totals, InvoiceItem.calculate_total, resolve_discount]
  refine ⟨?_, hlen1, hlen2, rfl, hcc⟩
  intro h
  rw [h] at hlen1
  simp [stC2] at hlen1

/-- A row of the `customers` table (database.py, lines 104-114),
restricted to the columns searched. -/
structure CustomerRow where
  id : Nat
  name : String
  phone : String
  email : String
deriving Repr, DecidableEq

/-- Whether `needle` occurs as a contiguous run inside `hay`. -/
def char_run_in : List Char → List Char → Bool
  | needle, [] => needle.isEmpty
  | needle, c :: rest => needle.isPrefixOf (c :: rest) || char_run_in needle rest

/-- The predicate `field LIKE '%query%'` of the WHERE clause that
`Customer.search` (models.py, lines 75-80) tries to run: SQLite LIKE is
case-insensitive, so both sides are lowered character by character. -/
def like_contains (field q : String) : Bool :=
  char_run_in (q.toList.map Char.toLower) (field.toList.map Char.toLower)

/-- The customers the spec says `Customer.search` returns: those whose
name, email or phone contains the query case-insensitively. -/
def search_spec (tbl : List CustomerRow) (q : String) : List CustomerRow :=
  tbl.filter (fun c =>
    like_contains c.name q || like_contains c.email q || like_contains c.phone q)

/-- Embeds `Customer.search` (models.py, lines 72-92) as the code actually
behaves: its SQL text is malformed (two SELECT clauses fused together,
lines 76-78), sqlite3 raises OperationalError on it, and
`Database.fetch_all` (database.py, lines 75-87) catches the error and
returns the empty list.  Every call therefore returns no customers,
whatever the table holds. -/
def Customer.search (_tbl : List CustomerRow) (_q : String) :
    List CustomerRow := []

/-- The customers table of the C7 counterexample. -/
def tblC7 : List CustomerRow :=
  [{ id := 1, name := "Alice", phone := "555-1234"
     email := "alice@example.com" }]

/-- C7: `Customer.search` returns the empty list for every table and
query, while the case-insensitive substring semantics the spec states
would return the matching customer "Alice" for the query "Ali". -/
theorem C7_search_returns_nothing :
    (∀ (tbl : List CustomerRow) (q : String), Customer.search tbl q = []) ∧
    Customer.search tblC7 "Ali" = [] ∧
    search_spec tblC7 "Ali"
      = [{ id := 1, name := "Alice", phone := "555-1234"
           email := "alice@example.com" }] ∧
    Customer.search tblC7 "Ali" ≠ search_spec tblC7 "Ali" := by
  refine ⟨fun _ _ => rfl, rfl, by decide, by decide⟩

end NanoERP
